import Mathlib

set_option maxRecDepth 16384

/-!
Verification of the two code-generation CLI scripts of the
LiteratureReview-System repository:

  * `scripts/create-fhevm-example.ts` (Standalone-Repository Generator)
  * `scripts/generate-docs.ts`        (Documentation Generator)

The scripts are synchronous, single-threaded batch programs whose only
effects are filesystem reads/writes and console messages.  We embed them
shallowly:

  * A filesystem is a finite map from paths to file contents, plus the set
    of existing directories, plus an oracle `failWrites` of paths whose
    `writeFileSync`/`copyFileSync` calls fail for environmental reasons
    (permissions, missing parent directory, disk full, ...).  A failing
    write raises; in `create-fhevm-example.ts` the surrounding `try` block
    catches it, in `generate-docs.ts` nothing does and the process dies.
  * A path is its list of `/`-separated segments (the view Node's
    `path.join`/`path.basename` take of relative paths; `path.join`
    normalisation of `.` segments is not applied, which is irrelevant here
    because no claim depends on it).
  * Console colour codes are presentation only (spec section 7) and are
    elided from the modelled console output; the message texts are kept.
  * `process.exit(1)` / an uncaught exception terminate the process with a
    non-zero exit code; the model returns the exit code.

Each `main` is a pure function from (cwd, argv, filesystem) to a
`RunResult` holding the final filesystem, the console lines printed, and
the exit code.
-/

/-! ## Paths -/

/-- A filesystem path, as its list of `/`-separated segments. -/
abbrev FsPath := List String

/-- Split a list of characters at every `/` (the segment view Node's path
functions take of a relative path string). -/
def splitCharsAux (cur : List Char) : List Char → List (List Char)
  | [] => [cur.reverse]
  | c :: rest =>
    if c = '/' then cur.reverse :: splitCharsAux [] rest
    else splitCharsAux (c :: cur) rest

/-- The segments of a path string, e.g. `segs "contracts/basic/FHEAdd.sol"
= ["contracts", "basic", "FHEAdd.sol"]`. -/
def segs (s : String) : FsPath :=
  (splitCharsAux [] s.toList).map fun l => String.mk l

/-- Render a segment path back to a string (`/`-separated), used where the
scripts interpolate a joined path into a console message. -/
def renderPath : FsPath → String
  | [] => ""
  | [x] => x
  | x :: rest => x ++ "/" ++ renderPath rest

/-- `path.basename`: the last `/`-separated segment of a path string. -/
def basename (p : String) : String := (segs p).getLastD ""

/-- All non-empty prefixes of a path: the directories created by a
`fs.mkdirSync(p, { recursive: true })` call. -/
def ancestors (p : FsPath) : List FsPath :=
  (List.range p.length).map fun k => p.take (k + 1)

/-! ## Filesystem model -/

/-- Filesystem state: file contents, existing directories, and the oracle
of paths whose writes fail (environmental write errors). -/
structure FS where
  files : List (FsPath × String)
  dirs : List FsPath
  failWrites : List FsPath
deriving DecidableEq

/-- First-match association lookup (most recent write is at the head). -/
def assocFind (p : FsPath) : List (FsPath × String) → Option String
  | [] => none
  | (q, c) :: rest => if q = p then some c else assocFind p rest

/-- `fs.readFileSync` succeeds iff the file exists; returns its bytes. -/
def lookupFile (fs : FS) (p : FsPath) : Option String :=
  assocFind p fs.files

/-- `fs.existsSync`: true for an existing file or directory. -/
def existsSync (fs : FS) (p : FsPath) : Bool :=
  (lookupFile fs p).isSome || fs.dirs.contains p

/-- `fs.mkdirSync(p, { recursive: true })`: creates the directory and all
its ancestors (idempotent when they exist). -/
def mkdirRec (fs : FS) (p : FsPath) : FS :=
  { fs with dirs := ancestors p ++ fs.dirs }

/-- Does a `writeFileSync`/`copyFileSync` to `p` succeed? -/
def writeOk (fs : FS) (p : FsPath) : Bool :=
  !(fs.failWrites.contains p)

/-- Record a successful write of content `c` at path `p`. -/
def writeFS (fs : FS) (p : FsPath) (c : String) : FS :=
  { fs with files := (p, c) :: fs.files }

@[simp] theorem mkdirRec_files (fs : FS) (p : FsPath) :
    (mkdirRec fs p).files = fs.files := rfl

@[simp] theorem mkdirRec_failWrites (fs : FS) (p : FsPath) :
    (mkdirRec fs p).failWrites = fs.failWrites := rfl

@[simp] theorem writeFS_dirs (fs : FS) (p : FsPath) (c : String) :
    (writeFS fs p c).dirs = fs.dirs := rfl

@[simp] theorem writeFS_failWrites (fs : FS) (p : FsPath) (c : String) :
    (writeFS fs p c).failWrites = fs.failWrites := rfl

@[simp] theorem writeFS_files (fs : FS) (p : FsPath) (c : String) :
    (writeFS fs p c).files = (p, c) :: fs.files := rfl

@[simp] theorem writeOk_mkdirRec (fs : FS) (p q : FsPath) :
    writeOk (mkdirRec fs p) q = writeOk fs q := rfl

@[simp] theorem writeOk_writeFS (fs : FS) (p : FsPath) (c : String) (q : FsPath) :
    writeOk (writeFS fs p c) q = writeOk fs q := rfl

/-- The result of one process run: final filesystem, console lines printed
(in order), and the process exit code. -/
structure RunResult where
  fs : FS
  output : List String
  exitCode : Nat
deriving DecidableEq

/-! ## The Example Registry of `create-fhevm-example.ts` (`EXAMPLES_MAP`) -/

/-- Registry entry of the Standalone-Repository Generator
(`interface ExampleConfig` in `create-fhevm-example.ts`). -/
structure ExampleConfig where
  contract : String
  test : String
  description : String
  category : String
deriving DecidableEq

/-- `EXAMPLES_MAP` from `create-fhevm-example.ts`, in declaration order. -/
def EXAMPLES_MAP : List (String × ExampleConfig) := [
  ("fhe-add",
    { contract := "contracts/basic/FHEAdd.sol",
      test := "test/basic/FHEAdd.ts",
      description := "Demonstrates FHE addition operations on encrypted values.",
      category := "Basic" }),
  ("fhe-subtract",
    { contract := "contracts/basic/FHESubtract.sol",
      test := "test/basic/FHESubtract.ts",
      description := "Shows how to perform subtraction on encrypted values with underflow protection.",
      category := "Basic" }),
  ("fhe-equality",
    { contract := "contracts/basic/FHEEquality.sol",
      test := "test/basic/FHEEquality.ts",
      description := "Compares encrypted values for equality returning encrypted boolean.",
      category := "Basic" }),
  ("encrypt-single",
    { contract := "contracts/encryption/EncryptSingleValue.sol",
      test := "test/encryption/EncryptSingleValue.ts",
      description := "Demonstrates receiving and storing a single encrypted value with input proofs.",
      category := "Encryption" }),
  ("encrypt-multiple",
    { contract := "contracts/encryption/EncryptMultipleValues.sol",
      test := "test/encryption/EncryptMultipleValues.ts",
      description := "Shows how to handle multiple encrypted values and permission management.",
      category := "Encryption" }),
  ("user-decrypt",
    { contract := "contracts/decryption/UserDecryptSingleValue.sol",
      test := "test/decryption/UserDecryptSingleValue.ts",
      description := "Demonstrates user decryption mechanism and permission requirements.",
      category := "Decryption" }),
  ("public-decrypt",
    { contract := "contracts/decryption/PublicDecryptSingleValue.sol",
      test := "test/decryption/PublicDecryptSingleValue.ts",
      description := "Shows public decryption for revealing encrypted values to everyone.",
      category := "Decryption" }),
  ("blind-auction",
    { contract := "contracts/advanced/BlindAuction.sol",
      test := "test/advanced/BlindAuction.ts",
      description := "Sealed-bid auction where bids remain encrypted during bidding phase.",
      category := "Advanced" }),
  ("access-control",
    { contract := "contracts/advanced/AccessControlExample.sol",
      test := "test/advanced/AccessControlExample.ts",
      description := "Complete guide to FHE permission system: allowThis, allow, and allowTransient.",
      category := "Advanced" }),
  ("literature-review",
    { contract := "contracts/LiteratureReviewSystem.sol",
      test := "test/LiteratureReviewSystem.ts",
      description := "A confidential literature awards platform using FHE to enable encrypted submissions, reviews, and winner selection.",
      category := "Advanced" }),
  ("common-mistakes",
    { contract := "contracts/antipatterns/CommonMistakes.sol",
      test := "test/antipatterns/CommonMistakes.ts",
      description := "Educational examples showing common mistakes and anti-patterns to avoid.",
      category := "Education" }),
  ("handles-and-proofs",
    { contract := "contracts/education/HandlesAndProofs.sol",
      test := "test/education/HandlesAndProofs.ts",
      description := "Complete explanation of FHE handles, input proofs, and symbolic execution.",
      category := "Education" }),
  ("user-decrypt-multiple",
    { contract := "contracts/decryption/UserDecryptMultipleValues.sol",
      test := "test/decryption/UserDecryptMultipleValues.ts",
      description := "User decryption mechanism for multiple encrypted values.",
      category := "Decryption" }),
  ("public-decrypt-multiple",
    { contract := "contracts/decryption/PublicDecryptMultipleValues.sol",
      test := "test/decryption/PublicDecryptMultipleValues.ts",
      description := "Public decryption for multiple encrypted values.",
      category := "Decryption" }),
  ("confidential-erc20",
    { contract := "contracts/openzeppelin/ConfidentialERC20.sol",
      test := "test/openzeppelin/ConfidentialERC20.ts",
      description := "Confidential ERC20 token with encrypted balances and transfers.",
      category := "OpenZeppelin" })
]

/-- `EXAMPLES_MAP[name]`: registry lookup by name. -/
def lookupExample (name : String) : Option ExampleConfig :=
  match EXAMPLES_MAP.find? (fun e => e.1 = name) with
  | some e => some e.2
  | none => none

/-! ## The Example Registry of `generate-docs.ts` (`EXAMPLES_CONFIG`) -/

/-- Registry entry of the Documentation Generator
(`interface DocsConfig` in `generate-docs.ts`). -/
structure DocsConfig where
  title : String
  description : String
  contract : String
  test : String
  output : String
  category : String
deriving DecidableEq

/-- `EXAMPLES_CONFIG` from `generate-docs.ts`, in declaration order. -/
def EXAMPLES_CONFIG : List (String × DocsConfig) := [
  ("fhe-add",
    { title := "FHE Addition Operations",
      description := "This example demonstrates how to perform addition on encrypted values using FHE.add().",
      contract := "contracts/basic/FHEAdd.sol",
      test := "test/basic/FHEAdd.ts",
      output := "docs/fhe-add.md",
      category := "Basic" }),
  ("fhe-subtract",
    { title := "FHE Subtraction Operations",
      description := "This example shows how to perform subtraction on encrypted values with underflow considerations.",
      contract := "contracts/basic/FHESubtract.sol",
      test := "test/basic/FHESubtract.ts",
      output := "docs/fhe-subtract.md",
      category := "Basic" }),
  ("fhe-equality",
    { title := "FHE Equality Comparisons",
      description := "This example demonstrates how to compare encrypted values for equality using FHE.eq().",
      contract := "contracts/basic/FHEEquality.sol",
      test := "test/basic/FHEEquality.ts",
      output := "docs/fhe-equality.md",
      category := "Basic" }),
  ("encrypt-single",
    { title := "Encrypt Single Value",
      description := "This example demonstrates the FHE encryption mechanism for single values and common pitfalls.",
      contract := "contracts/encryption/EncryptSingleValue.sol",
      test := "test/encryption/EncryptSingleValue.ts",
      output := "docs/encrypt-single.md",
      category := "Encryption" }),
  ("encrypt-multiple",
    { title := "Encrypt Multiple Values",
      description := "This example shows how to encrypt and handle multiple values in a single transaction.",
      contract := "contracts/encryption/EncryptMultipleValues.sol",
      test := "test/encryption/EncryptMultipleValues.ts",
      output := "docs/encrypt-multiple.md",
      category := "Encryption" }),
  ("user-decrypt",
    { title := "User Decryption",
      description := "This example demonstrates the user decryption mechanism and permission requirements.",
      contract := "contracts/decryption/UserDecryptSingleValue.sol",
      test := "test/decryption/UserDecryptSingleValue.ts",
      output := "docs/user-decrypt.md",
      category := "Decryption" }),
  ("public-decrypt",
    { title := "Public Decryption",
      description := "This example shows public decryption for revealing encrypted values to everyone.",
      contract := "contracts/decryption/PublicDecryptSingleValue.sol",
      test := "test/decryption/PublicDecryptSingleValue.ts",
      output := "docs/public-decrypt.md",
      category := "Decryption" }),
  ("blind-auction",
    { title := "Blind Auction",
      description := "This example demonstrates a sealed-bid auction where bids remain encrypted during the bidding phase.",
      contract := "contracts/advanced/BlindAuction.sol",
      test := "test/advanced/BlindAuction.ts",
      output := "docs/blind-auction.md",
      category := "Advanced" }),
  ("access-control",
    { title := "Access Control with FHE",
      description := "This example provides a complete guide to FHEVM permission system: allowThis, allow, and allowTransient.",
      contract := "contracts/advanced/AccessControlExample.sol",
      test := "test/advanced/AccessControlExample.ts",
      output := "docs/access-control.md",
      category := "Advanced" }),
  ("literature-review",
    { title := "Literature Review System",
      description := "This example demonstrates how to build a confidential literature awards platform using FHE, enabling encrypted submissions, confidential reviews, and fair winner selection.",
      contract := "contracts/LiteratureReviewSystem.sol",
      test := "test/LiteratureReviewSystem.ts",
      output := "docs/literature-review.md",
      category := "Advanced" }),
  ("common-mistakes",
    { title := "Common Mistakes and Anti-Patterns",
      description := "This educational example shows common mistakes developers make when working with FHEVM and how to avoid them.",
      contract := "contracts/antipatterns/CommonMistakes.sol",
      test := "test/antipatterns/CommonMistakes.ts",
      output := "docs/common-mistakes.md",
      category := "Education" }),
  ("handles-and-proofs",
    { title := "Handles, Input Proofs, and Symbolic Execution",
      description := "This guide explains how FHE handles work, what input proofs validate, and how symbolic execution ensures correctness.",
      contract := "contracts/education/HandlesAndProofs.sol",
      test := "test/education/HandlesAndProofs.ts",
      output := "docs/handles-and-proofs.md",
      category := "Education" }),
  ("user-decrypt-multiple",
    { title := "User Decrypt Multiple Values",
      description := "This example demonstrates how users can decrypt multiple encrypted values with proper permission management.",
      contract := "contracts/decryption/UserDecryptMultipleValues.sol",
      test := "test/decryption/UserDecryptMultipleValues.ts",
      output := "docs/user-decrypt-multiple.md",
      category := "Decryption" }),
  ("public-decrypt-multiple",
    { title := "Public Decrypt Multiple Values",
      description := "This example shows public decryption for multiple values, useful for leaderboards and results.",
      contract := "contracts/decryption/PublicDecryptMultipleValues.sol",
      test := "test/decryption/PublicDecryptMultipleValues.ts",
      output := "docs/public-decrypt-multiple.md",
      category := "Decryption" }),
  ("confidential-erc20",
    { title := "Confidential ERC20 Token",
      description := "This example demonstrates a confidential ERC20 token with encrypted balances and transfers, inspired by OpenZeppelin.",
      contract := "contracts/openzeppelin/ConfidentialERC20.sol",
      test := "test/openzeppelin/ConfidentialERC20.ts",
      output := "docs/confidential-erc20.md",
      category := "OpenZeppelin" })
]

/-- `EXAMPLES_CONFIG[name]`: registry lookup by name. -/
def lookupDocsConfig (name : String) : Option DocsConfig :=
  match EXAMPLES_CONFIG.find? (fun e => e.1 = name) with
  | some e => some e.2
  | none => none

/-! ## String helpers used by the scripts -/

/-- Character-level check that `pat` starts the list `l`
(used to implement first-occurrence replacement as JS `String.replace`
with a string pattern does). -/
def leadsWith : List Char → List Char → Bool
  | [], _ => true
  | _ :: _, [] => false
  | p :: ps, c :: cs => p = c && leadsWith ps cs

/-- Replace the first occurrence of `pat` (JS `s.replace(pat, rep)` with a
string pattern replaces only the first occurrence). -/
def replaceFirstChars (pat rep : List Char) : List Char → List Char
  | [] => if leadsWith pat [] then rep else []
  | c :: rest =>
    if leadsWith pat (c :: rest) then rep ++ (c :: rest).drop pat.length
    else c :: replaceFirstChars pat rep rest

/-- JS `s.replace(pat, rep)` for plain string patterns. -/
def replaceFirstStr (s pat rep : String) : String :=
  String.mk (replaceFirstChars pat.toList rep.toList s.toList)

/-- JS `exampleName.replace(dash-regex-global, " ")`: every dash becomes a
space. -/
def dashToSpace (s : String) : String :=
  String.mk (s.toList.map fun c => if c = '-' then ' ' else c)

/-- Left-to-right concatenation of a list of strings (the value produced
by a sequence of JS `+=` appends). -/
def joinAll : List String → String
  | [] => ""
  | s :: rest => s ++ joinAll rest

/-! ## Documentation Generator: `generate-docs.ts` -/

/-- `readFileContent` from `generate-docs.ts`: best-effort read; on failure
the placeholder `File not found: <path>` is returned instead of raising. -/
def readFileContent (fs : FS) (filePath : String) : String :=
  match lookupFile fs (segs filePath) with
  | some c => c
  | none => "File not found: " ++ filePath

/-- The document text of `generateDocumentation` that precedes the embedded
contract source (everything up to and including the opening solidity
fence). -/
def docHeader (config : DocsConfig) : String :=
  "# " ++ config.title ++ "\n\n"
  ++ "**Category:** " ++ config.category ++ "\n\n"
  ++ "## Overview\n\n"
  ++ config.description ++ "\n\n"
  ++ "## Key Concepts\n\n"
  ++ "### What is FHE (Fully Homomorphic Encryption)?\n\n"
  ++ "FHE allows computation on encrypted data without decryption. This enables:\n\n"
  ++ "- **Privacy:** Data remains encrypted throughout computation\n"
  ++ "- **Confidentiality:** Smart contract logic operates on encrypted values\n"
  ++ "- **Zero-Knowledge:** Proofs verify correct encryption binding\n\n"
  ++ "### FHEVM Integration\n\n"
  ++ "This example uses FHEVM from Zama to:\n\n"
  ++ "- Encrypt user inputs with zero-knowledge proofs\n"
  ++ "- Perform operations on encrypted values\n"
  ++ "- Control access to encrypted data\n"
  ++ "- Decrypt results through relayers\n\n"
  ++ "## Smart Contract\n\n"
  ++ "### Contract Code\n\n"
  ++ "```solidity\n"

/-- The document text between the embedded contract source and the
embedded test source. -/
def docBetween : String :=
  "\n```\n\n"
  ++ "## Test Examples\n\n"
  ++ "### Test File\n\n"
  ++ "```typescript\n"

/-- The document text following the embedded test source (critical
patterns, running instructions, pitfalls, resources, license). -/
def docFooter : String :=
  "\n```\n\n"
  ++ "## Critical Patterns\n\n"
  ++ "### ✅ Correct: Grant Both Permissions\n\n"
  ++ "```solidity\n"
  ++ "FHE.allowThis(encryptedValue);        // Contract permission\n"
  ++ "FHE.allow(encryptedValue, msg.sender); // User permission\n"
  ++ "```\n\n"
  ++ "### ❌ Incorrect: Missing allowThis\n\n"
  ++ "```solidity\n"
  ++ "FHE.allow(encryptedValue, msg.sender); // Missing allowThis - will fail!\n"
  ++ "```\n\n"
  ++ "### ✅ Correct: Match Encryption Signer\n\n"
  ++ "```typescript\n"
  ++ "const enc = await fhevm.createEncryptedInput(contractAddr, alice.address)\n"
  ++ "    .add32(123).encrypt();\n"
  ++ "await contract.connect(alice).operate(enc.handles[0], enc.inputProof);\n"
  ++ "```\n\n"
  ++ "### ❌ Incorrect: Mismatched Signer\n\n"
  ++ "```typescript\n"
  ++ "const enc = await fhevm.createEncryptedInput(contractAddr, alice.address)\n"
  ++ "    .add32(123).encrypt();\n"
  ++ "await contract.connect(bob).operate(enc.handles[0], enc.inputProof); // Fails!\n"
  ++ "```\n\n"
  ++ "## Running the Example\n\n"
  ++ "### Installation\n\n"
  ++ "```bash\nnpm install\n```\n\n"
  ++ "### Compilation\n\n"
  ++ "```bash\nnpm run compile\n```\n\n"
  ++ "### Run Tests\n\n"
  ++ "```bash\nnpm run test\n```\n\n"
  ++ "### Deploy to Sepolia\n\n"
  ++ "```bash\nnpm run deploy:sepolia\n```\n\n"
  ++ "## Common Pitfalls\n\n"
  ++ "### 1. Forgetting FHE.allowThis()\n\n"
  ++ "Always grant contract permission before user permission:\n"
  ++ "```solidity\n"
  ++ "FHE.allowThis(encryptedValue);        // Contract permission first\n"
  ++ "FHE.allow(encryptedValue, msg.sender); // Then user permission\n"
  ++ "```\n\n"
  ++ "### 2. Using Encrypted Values in View Functions\n\n"
  ++ "View functions cannot work with encrypted values. They must return\n"
  ++ "plaintext or handles only:\n"
  ++ "```solidity\n"
  ++ "// ❌ WRONG - view function with encryption\n"
  ++ "function getValue() external view returns (euint32) \x7b ... \x7d\n\n"
  ++ "// ✅ CORRECT - view function returns handles\n"
  ++ "function getValue() external view returns (string memory) \x7b ... \x7d\n"
  ++ "```\n\n"
  ++ "### 3. Mismatched Encryption Signers\n\n"
  ++ "Ensure the encryption signer matches the caller:\n"
  ++ "```typescript\n"
  ++ "// Encrypt with user\x27s address\n"
  ++ "const enc = await fhevm.createEncryptedInput(contract.address, userAddress);\n"
  ++ "// Call with same user\n"
  ++ "await contract.connect(user).process(enc.handles[0], enc.inputProof);\n"
  ++ "```\n\n"
  ++ "## Resources\n\n"
  ++ "- [FHEVM Documentation](https://docs.zama.ai/fhevm)\n"
  ++ "- [Zama GitHub](https://github.com/zama-ai)\n"
  ++ "- [FHEVM Hardhat Template](https://github.com/zama-ai/fhevm-hardhat-template)\n"
  ++ "- [Zama Community](https://www.zama.ai/community)\n\n"
  ++ "## License\n\n"
  ++ "BSD-3-Clause-Clear\n\n"
  ++ "---\n\n"
  ++ "Built with FHEVM by Zama\n"

/-- `generateDocumentation` from `generate-docs.ts`: reads both sources
(best-effort) and assembles the fixed-section markdown document.  (The
`exampleName` parameter is present but unused, as in the source.) -/
def generateDocumentation (_exampleName : String) (config : DocsConfig)
    (fs : FS) : String :=
  let contractContent := readFileContent fs config.contract
  let testContent := readFileContent fs config.test
  docHeader config ++ (contractContent ++ (docBetween ++ (testContent ++ docFooter)))

/-- The link target in a `SUMMARY.md` bullet:
`config.output.replace("docs/", "").replace(".md", "")`. -/
def docLink (config : DocsConfig) : String :=
  replaceFirstStr (replaceFirstStr config.output "docs/" "") ".md" ""

/-- One bullet of `SUMMARY.md` (empty when the name is, impossibly, not in
the registry — the source's `if (config)` guard). -/
def summaryLine (name : String) : String :=
  match lookupDocsConfig name with
  | some config => "- [" ++ config.title ++ "](" ++ docLink config ++ ".md)\n"
  | none => ""

/-- The fixed heading of `SUMMARY.md`. -/
def summaryHeader : String :=
  "# FHEVM Examples Documentation\n\n" ++ "## Table of Contents\n\n"

/-- The fixed overview block ending `SUMMARY.md`. -/
def summaryOverview : String :=
  "\n## Overview\n\n"
  ++ "This documentation provides comprehensive guides for FHEVM examples, covering:\n\n"
  ++ "- FHE (Fully Homomorphic Encryption) concepts\n"
  ++ "- FHEVM integration patterns\n"
  ++ "- Practical smart contract examples\n"
  ++ "- Test implementations\n"
  ++ "- Common pitfalls and best practices\n"

/-- The text `generateSummary` assembles for the given example names. -/
def summaryText (examples : List String) : String :=
  summaryHeader ++ joinAll (examples.map summaryLine) ++ summaryOverview

/-- The path `generate-docs.ts` actually writes a per-example document to:
`path.join(outputDir, config.output)` with `outputDir = "docs"`.  Note the
`config.output` value itself already starts with `docs/`. -/
def docsOutPath (config : DocsConfig) : FsPath :=
  ["docs"] ++ segs config.output

/-- Result of the `--all` batch loop: final filesystem, console lines, and
whether the loop ran to completion (`false` = a `writeFileSync` raised; the
`forEach` body has no try/catch, so the exception escapes and kills the
process). -/
structure BatchResult where
  fs : FS
  output : List String
  ok : Bool
deriving DecidableEq

/-- The `Object.entries(EXAMPLES_CONFIG).forEach` body of `--all` mode:
for each example, log, assemble the document, and write it to
`path.join(outputDir, config.output)`. -/
def docsAllLoop (fs : FS) : List (String × DocsConfig) → BatchResult
  | [] => ⟨fs, [], true⟩
  | (name, config) :: rest =>
    let doc := generateDocumentation name config fs
    let p := docsOutPath config
    if writeOk fs p then
      let r := docsAllLoop (writeFS fs p doc) rest
      ⟨r.fs, ("ℹ️  Generating " ++ name ++ "...")
             :: ("✅ Generated " ++ config.output) :: r.output, r.ok⟩
    else
      ⟨fs, ["ℹ️  Generating " ++ name ++ "..."], false⟩

/-- The listing printed by a no-argument invocation of `generate-docs.ts`,
followed by the fatal usage error. -/
def docsUsageOutput : List String :=
  "Available examples:"
    :: (EXAMPLES_CONFIG.map fun e => "  - " ++ e.1)
    ++ ["❌ Error: Please specify an example name or use --all"]

/-- The `--all` arm of `main`: run the batch loop over the whole registry,
then (if no write raised) `generateSummary` writes `docs/SUMMARY.md`. -/
def docsAllRun (fs1 : FS) : RunResult :=
  let r := docsAllLoop fs1 EXAMPLES_CONFIG
  if r.ok then
    -- generateSummary: one write to path.join(outputDir, "SUMMARY.md")
    if writeOk r.fs ["docs", "SUMMARY.md"] then
      ⟨writeFS r.fs ["docs", "SUMMARY.md"]
          (summaryText (EXAMPLES_CONFIG.map fun e => e.1)),
       "ℹ️  Generating documentation for all examples..."
         :: r.output ++ ["\nDocumentation generation completed!"], 0⟩
    else
      ⟨r.fs, "ℹ️  Generating documentation for all examples..." :: r.output, 1⟩
  else
    ⟨r.fs, "ℹ️  Generating documentation for all examples..." :: r.output, 1⟩

/-- `main` of `generate-docs.ts`.  Note two behaviours relevant to the
claims: the `docs` output directory is created (if absent) before the
example name is validated, and the per-example write path is
`path.join("docs", config.output)` although `config.output` already
carries the `docs/` prefix. -/
def docsMain (args : List String) (fs : FS) : RunResult :=
  if args.isEmpty then
    ⟨fs, docsUsageOutput, 1⟩
  else
    let exampleName := args.headD ""
    let fs1 := if existsSync fs ["docs"] then fs else mkdirRec fs ["docs"]
    if exampleName = "--all" then
      docsAllRun fs1
    else
      match lookupDocsConfig exampleName with
      | none => ⟨fs1, ["❌ Error: Unknown example: " ++ exampleName], 1⟩
      | some config =>
        let doc := generateDocumentation exampleName config fs1
        let p := docsOutPath config
        if writeOk fs1 p then
          ⟨writeFS fs1 p doc,
           ["ℹ️  Generating documentation for " ++ exampleName ++ "...",
            "✅ Documentation generated: " ++ renderPath p,
            "\nDocumentation generation completed!"], 0⟩
        else
          ⟨fs1, ["ℹ️  Generating documentation for " ++ exampleName ++ "..."], 1⟩

/-! ## Standalone-Repository Generator: `create-fhevm-example.ts` -/

/-- The `README.md` text of `generateReadme`. -/
def readmeContent (exampleName : String) (exampleConfig : ExampleConfig) : String :=
  "# " ++ dashToSpace exampleName ++ " - FHEVM Example\n\n"
  ++ exampleConfig.description ++ "\n\n"
  ++ "## Quick Start\n\n"
  ++ "### Installation\n\n"
  ++ "```bash\nnpm install\n```\n\n"
  ++ "### Compilation\n\n"
  ++ "```bash\nnpm run compile\n```\n\n"
  ++ "### Running Tests\n\n"
  ++ "```bash\nnpm run test\n```\n\n"
  ++ "## Project Structure\n\n"
  ++ "```\n.\n"
  ++ "├── contracts/\n"
  ++ "│   └── " ++ basename exampleConfig.contract ++ "\n"
  ++ "├── test/\n"
  ++ "│   └── " ++ basename exampleConfig.test ++ "\n"
  ++ "├── hardhat.config.ts\n"
  ++ "├── package.json\n"
  ++ "└── tsconfig.json\n"
  ++ "```\n\n"
  ++ "## Key Concepts\n\n"
  ++ "This example demonstrates:\n"
  ++ "- FHE (Fully Homomorphic Encryption) implementation using FHEVM\n"
  ++ "- Privacy-preserving smart contract operations\n"
  ++ "- Encrypted data handling on blockchain\n"
  ++ "- Zero-knowledge proof validation\n\n"
  ++ "## Dependencies\n\n"
  ++ "- **@fhevm/solidity** - Core FHEVM Solidity library for FHE operations\n"
  ++ "- **@fhevm/hardhat-plugin** - Hardhat integration for FHEVM testing\n"
  ++ "- **Hardhat** - Development environment for smart contracts\n"
  ++ "- **TypeScript** - Type-safe development\n\n"
  ++ "## Resources\n\n"
  ++ "- [FHEVM Documentation](https://docs.zama.ai/fhevm)\n"
  ++ "- [Zama GitHub](https://github.com/zama-ai)\n"
  ++ "- [FHEVM Examples](https://github.com/zama-ai/fhevm-hardhat-template)\n\n"
  ++ "## License\n\n"
  ++ "BSD-3-Clause-Clear\n\n"
  ++ "---\n\n"
  ++ "Built with FHEVM by Zama\n"

/-- The `package.json` text of `generatePackageJson`
(`JSON.stringify(packageJson, null, 2)`, insertion order, 2-space
indent). -/
def packageJsonContent (exampleName : String) : String :=
  "\x7b\n"
  ++ "  \"name\": \"fhevm-example-" ++ exampleName ++ "\",\n"
  ++ "  \"version\": \"1.0.0\",\n"
  ++ "  \"description\": \"FHEVM Example: " ++ exampleName ++ "\",\n"
  ++ "  \"engines\": \x7b\n"
  ++ "    \"node\": \">=20\",\n"
  ++ "    \"npm\": \">=7.0.0\"\n"
  ++ "  \x7d,\n"
  ++ "  \"license\": \"BSD-3-Clause-Clear\",\n"
  ++ "  \"keywords\": [\n"
  ++ "    \"fhevm\",\n"
  ++ "    \"zama\",\n"
  ++ "    \"fhe\",\n"
  ++ "    \"privacy\",\n"
  ++ "    \"blockchain\",\n"
  ++ "    \"ethereum\"\n"
  ++ "  ],\n"
  ++ "  \"dependencies\": \x7b\n"
  ++ "    \"encrypted-types\": \"^0.0.4\",\n"
  ++ "    \"@fhevm/solidity\": \"^0.9.1\"\n"
  ++ "  \x7d,\n"
  ++ "  \"devDependencies\": \x7b\n"
  ++ "    \"@fhevm/hardhat-plugin\": \"^0.3.0-1\",\n"
  ++ "    \"@nomicfoundation/hardhat-chai-matchers\": \"^2.1.0\",\n"
  ++ "    \"@nomicfoundation/hardhat-ethers\": \"^3.1.0\",\n"
  ++ "    \"@types/chai\": \"^4.3.20\",\n"
  ++ "    \"@types/mocha\": \"^10.0.10\",\n"
  ++ "    \"@types/node\": \"^20.19.8\",\n"
  ++ "    \"chai\": \"^4.5.0\",\n"
  ++ "    \"chai-as-promised\": \"^8.0.1\",\n"
  ++ "    \"cross-env\": \"^7.0.3\",\n"
  ++ "    \"ethers\": \"^6.15.0\",\n"
  ++ "    \"hardhat\": \"^2.26.0\",\n"
  ++ "    \"hardhat-deploy\": \"^0.11.45\",\n"
  ++ "    \"mocha\": \"^11.7.1\",\n"
  ++ "    \"ts-node\": \"^10.9.2\",\n"
  ++ "    \"typescript\": \"^5.8.3\"\n"
  ++ "  \x7d,\n"
  ++ "  \"scripts\": \x7b\n"
  ++ "    \"compile\": \"cross-env TS_NODE_TRANSPILE_ONLY=true hardhat compile\",\n"
  ++ "    \"test\": \"hardhat test\",\n"
  ++ "    \"test:sepolia\": \"hardhat test --network sepolia\",\n"
  ++ "    \"build:ts\": \"tsc --project tsconfig.json\",\n"
  ++ "    \"typechain\": \"cross-env TS_NODE_TRANSPILE_ONLY=true hardhat typechain\",\n"
  ++ "    \"clean\": \"rimraf ./fhevmTemp ./artifacts ./cache ./coverage ./types\"\n"
  ++ "  \x7d\n"
  ++ "\x7d"

/-- The `hardhat.config.ts` text of `generateHardhatConfig` (a fixed
literal; the `configContent` template has no interpolations). -/
def hardhatConfigContent : String :=
  "import \"@fhevm/hardhat-plugin\";\n"
  ++ "import \"@nomicfoundation/hardhat-chai-matchers\";\n"
  ++ "import \"@nomicfoundation/hardhat-ethers\";\n"
  ++ "import type \x7b HardhatUserConfig \x7d from \"hardhat/config\";\n"
  ++ "import \x7b vars \x7d from \"hardhat/config\";\n\n"
  ++ "const MNEMONIC: string = vars.get(\"MNEMONIC\", \"test test test test test test test test test test test junk\");\n"
  ++ "const INFURA_API_KEY: string = vars.get(\"INFURA_API_KEY\", \"zzzzzzzzzzzzzzzzzzzzzzzzzzzzzzzz\");\n\n"
  ++ "const config: HardhatUserConfig = \x7b\n"
  ++ "  defaultNetwork: \"hardhat\",\n"
  ++ "  etherscan: \x7b\n"
  ++ "    apiKey: \x7b\n"
  ++ "      sepolia: vars.get(\"ETHERSCAN_API_KEY\", \"\"),\n"
  ++ "    \x7d,\n"
  ++ "  \x7d,\n"
  ++ "  networks: \x7b\n"
  ++ "    hardhat: \x7b\n"
  ++ "      accounts: \x7b\n"
  ++ "        mnemonic: MNEMONIC,\n"
  ++ "      \x7d,\n"
  ++ "      chainId: 31337,\n"
  ++ "    \x7d,\n"
  ++ "    sepolia: \x7b\n"
  ++ "      accounts: \x7b\n"
  ++ "        mnemonic: MNEMONIC,\n"
  ++ "        path: \"m/44\x27/60\x27/0\x27/0/\",\n"
  ++ "        count: 10,\n"
  ++ "      \x7d,\n"
  ++ "      chainId: 11155111,\n"
  ++ "      url: `https://sepolia.infura.io/v3/$\x7bINFURA_API_KEY\x7d`,\n"
  ++ "    \x7d,\n"
  ++ "  \x7d,\n"
  ++ "  paths: \x7b\n"
  ++ "    artifacts: \"./artifacts\",\n"
  ++ "    cache: \"./cache\",\n"
  ++ "    sources: \"./contracts\",\n"
  ++ "    tests: \"./test\",\n"
  ++ "  \x7d,\n"
  ++ "  solidity: \x7b\n"
  ++ "    version: \"0.8.27\",\n"
  ++ "    settings: \x7b\n"
  ++ "      metadata: \x7b\n"
  ++ "        bytecodeHash: \"none\",\n"
  ++ "      \x7d,\n"
  ++ "      optimizer: \x7b\n"
  ++ "        enabled: true,\n"
  ++ "        runs: 800,\n"
  ++ "      \x7d,\n"
  ++ "      evmVersion: \"cancun\",\n"
  ++ "    \x7d,\n"
  ++ "  \x7d,\n"
  ++ "  typechain: \x7b\n"
  ++ "    outDir: \"types\",\n"
  ++ "    target: \"ethers-v6\",\n"
  ++ "  \x7d,\n"
  ++ "\x7d;\n\n"
  ++ "export default config;\n"

/-- The `tsconfig.json` text of `generateTsConfig`
(`JSON.stringify(tsConfig, null, 2)`). -/
def tsConfigContent : String :=
  "\x7b\n"
  ++ "  \"compilerOptions\": \x7b\n"
  ++ "    \"target\": \"ES2022\",\n"
  ++ "    \"module\": \"commonjs\",\n"
  ++ "    \"lib\": [\n"
  ++ "      \"ES2022\"\n"
  ++ "    ],\n"
  ++ "    \"moduleResolution\": \"node\",\n"
  ++ "    \"esModuleInterop\": true,\n"
  ++ "    \"skipLibCheck\": true,\n"
  ++ "    \"strict\": true,\n"
  ++ "    \"resolveJsonModule\": true,\n"
  ++ "    \"outDir\": \"./dist\",\n"
  ++ "    \"declaration\": true,\n"
  ++ "    \"declarationMap\": true,\n"
  ++ "    \"sourceMap\": true,\n"
  ++ "    \"forceConsistentCasingInFileNames\": true,\n"
  ++ "    \"typeRoots\": [\n"
  ++ "      \"./node_modules/@types\",\n"
  ++ "      \"./types\"\n"
  ++ "    ]\n"
  ++ "  \x7d,\n"
  ++ "  \"include\": [\n"
  ++ "    \"./test\",\n"
  ++ "    \"./types\"\n"
  ++ "  ],\n"
  ++ "  \"exclude\": [\n"
  ++ "    \"./node_modules\",\n"
  ++ "    \"./dist\",\n"
  ++ "    \"./cache\",\n"
  ++ "    \"./artifacts\",\n"
  ++ "    \"./coverage\",\n"
  ++ "    \"./types\"\n"
  ++ "  ]\n"
  ++ "\x7d"

/-- Perform a sequence of writes, stopping at the first failing path (the
generator functions call `fs.writeFileSync` in order inside one `try`
block); returns the filesystem after the successful prefix and the first
failing path, if any. -/
def writeSeq (fs : FS) : List (FsPath × String) → FS × Option FsPath
  | [] => (fs, none)
  | (p, c) :: rest =>
    if writeOk fs p then writeSeq (writeFS fs p c) rest else (fs, some p)

/-- The listing printed by a no-argument invocation of
`create-fhevm-example.ts`, followed by the fatal usage error. -/
def createUsageOutput : List String :=
  "Available examples:"
    :: (EXAMPLES_MAP.map fun e => "  - " ++ e.1)
    ++ ["❌ Error: Please specify an example name"]

/-- The output directory of `create-fhevm-example.ts`:
`args[1] || "./" + exampleName` (JS `||`: an absent *or empty* second
argument falls back to the default). -/
def resolveOutputDir (args : List String) (exampleName : String) : String :=
  match args[1]? with
  | some s => if s = "" then "./" ++ exampleName else s
  | none => "./" ++ exampleName

/-- The two console lines `main` prints before touching the filesystem. -/
def createHeader (exampleName outputDir : String) : List String :=
  ["ℹ️  Creating example: " ++ exampleName,
   "ℹ️  Output directory: " ++ outputDir]

/-- The closing console lines of a successful run. -/
def createSuccessOutput (outputDir : String) : List String :=
  ["✅ Example created successfully!",
   "\nNext steps:",
   "1. cd " ++ outputDir,
   "2. npm install",
   "3. npm run compile",
   "4. npm run test"]

/-- The message of the error raised by a failing filesystem write (the
`err.message` surfaced by the catch block; environmental text, modelled
canonically by the failing path). -/
def writeFailMsg (p : FsPath) : String :=
  "write failed: " ++ renderPath p

/-- `main` of `create-fhevm-example.ts`.  Order of operations, as in the
source: resolve name (fail fast), create `outputDir/contracts` and
`outputDir/test`, check + copy the contract, check + copy the test, then
write README.md, package.json, hardhat.config.ts and tsconfig.json.  Any
filesystem error after the directories were created is caught by the
`try`/`catch` and reported; `process.exit(1)` paths are unaffected by the
`catch`. -/
def createMain (cwd : FsPath) (args : List String) (fs : FS) : RunResult :=
  if args.isEmpty then
    ⟨fs, createUsageOutput, 1⟩
  else
    let exampleName := args.headD ""
    let outputDir := resolveOutputDir args exampleName
    match lookupExample exampleName with
    | none => ⟨fs, ["❌ Error: Unknown example: " ++ exampleName], 1⟩
    | some exampleConfig =>
      let header := createHeader exampleName outputDir
      let out := segs outputDir
      let fs1 := mkdirRec (mkdirRec fs (out ++ ["contracts"])) (out ++ ["test"])
      let contractSrc := cwd ++ segs exampleConfig.contract
      match lookupFile fs1 contractSrc with
      | none =>
        ⟨fs1, header ++ ["❌ Error: Contract file not found: " ++ renderPath contractSrc], 1⟩
      | some contractBytes =>
        let contractDest := out ++ ["contracts", basename exampleConfig.contract]
        if writeOk fs1 contractDest then
          let fs2 := writeFS fs1 contractDest contractBytes
          let testSrc := cwd ++ segs exampleConfig.test
          match lookupFile fs2 testSrc with
          | none =>
            ⟨fs2, header ++ ["❌ Error: Test file not found: " ++ renderPath testSrc], 1⟩
          | some testBytes =>
            let remaining : List (FsPath × String) :=
              [(out ++ ["test", basename exampleConfig.test], testBytes),
               (out ++ ["README.md"], readmeContent exampleName exampleConfig),
               (out ++ ["package.json"], packageJsonContent exampleName),
               (out ++ ["hardhat.config.ts"], hardhatConfigContent),
               (out ++ ["tsconfig.json"], tsConfigContent)]
            match writeSeq fs2 remaining with
            | (fs3, none) => ⟨fs3, header ++ createSuccessOutput outputDir, 0⟩
            | (fs3, some p) =>
              ⟨fs3, header ++ ["❌ Error: Failed to create example: " ++ writeFailMsg p], 1⟩
        else
          ⟨fs1, header ++ ["❌ Error: Failed to create example: " ++ writeFailMsg contractDest], 1⟩

/-! ## Generic helper lemmas -/

theorem assocFind_cons_self (p : FsPath) (c : String) (rest : List (FsPath × String)) :
    assocFind p ((p, c) :: rest) = some c := by
  simp [assocFind]

theorem assocFind_cons_ne {p q : FsPath} (c : String) (rest : List (FsPath × String))
    (h : q ≠ p) : assocFind p ((q, c) :: rest) = assocFind p rest := by
  simp [assocFind, h]

theorem segs_ne_nil (s : String) : segs s ≠ [] := by
  have h : ∀ (cur l : List Char), splitCharsAux cur l ≠ [] := by
    intro cur l
    induction l generalizing cur with
    | nil => simp [splitCharsAux]
    | cons c rest ih =>
      simp only [splitCharsAux]
      split
      · simp
      · exact ih _
  simp [segs]
  exact h [] _

/-- Substring test on character lists. -/
def containsChars (n : List Char) : List Char → Bool
  | [] => leadsWith n []
  | c :: rest => leadsWith n (c :: rest) || containsChars n rest

/-- Substring test on strings. -/
def containsStr (s n : String) : Bool :=
  containsChars n.toList s.toList

theorem leadsWith_self_append (n m : List Char) : leadsWith n (n ++ m) = true := by
  induction n with
  | nil => simp [leadsWith]
  | cons c rest ih => simp [leadsWith, ih]

theorem containsChars_of_leads {n l : List Char} (h : leadsWith n l = true) :
    containsChars n l = true := by
  cases l with
  | nil => simpa [containsChars] using h
  | cons c rest => simp [containsChars, h]

theorem containsChars_middle (n a b : List Char) :
    containsChars n (a ++ (n ++ b)) = true := by
  induction a with
  | nil =>
    simpa using containsChars_of_leads (leadsWith_self_append n b)
  | cons c rest ih => simp [containsChars, ih]

theorem containsStr_of_split (s a n b : String) (h : s = a ++ (n ++ b)) :
    containsStr s n = true := by
  subst h
  show containsChars n.toList (a ++ (n ++ b)).toList = true
  have hd : (a ++ (n ++ b)).toList = a.toList ++ (n.toList ++ b.toList) := by
    show (a ++ (n ++ b)).data = a.data ++ (n.data ++ b.data)
    simp [String.data_append]
  rw [hd]
  exact containsChars_middle n.toList a.toList b.toList

theorem joinAll_append (xs ys : List String) :
    joinAll (xs ++ ys) = joinAll xs ++ joinAll ys := by
  induction xs with
  | nil =>
    apply String.ext
    simp [joinAll, String.data_append]
  | cons s rest ih =>
    apply String.ext
    simp [joinAll, String.data_append, ih]

/-! ## C10: empty output-directory argument -/

/-- C10: For every example name, invoking the Standalone-Repository
Generator with an empty string as the output-directory argument behaves
exactly as if no output directory was supplied (JS `args[1] ||
"./" + exampleName` treats the empty string as absent), so output goes
under the default `./<exampleName>` directory. -/
theorem createMain_empty_outputDir_default (cwd : FsPath) (name : String) (fs : FS) :
    createMain cwd [name, ""] fs = createMain cwd [name] fs
    ∧ resolveOutputDir [name, ""] name = "./" ++ name := by
  exact ⟨rfl, rfl⟩

/-! ## C7: the two registries -/

/-- C7 fails as stated: at the concrete name `fhe-add`, both registries
have an entry, but the free-text `description` metadata of the two tools
differ (the docs registry reads `This example demonstrates how to perform
addition on encrypted values using FHE.add().`, the standalone-generator
registry `Demonstrates FHE addition operations on encrypted values.`). -/
theorem registries_disagree_on_description :
    (lookupExample "fhe-add").isSome = true
    ∧ (lookupDocsConfig "fhe-add").isSome = true
    ∧ ((lookupExample "fhe-add").map fun c => c.description)
        ≠ ((lookupDocsConfig "fhe-add").map fun c => c.description) := by
  refine ⟨rfl, rfl, ?_⟩
  decide

/-- C7 (amended): the two registries list the same example names in the
same order, and for every name they agree on the contract path, the test
path and the category; the free-text descriptions, however, differ for
every single example. -/
theorem registries_agree_on_names_paths_category :
    (EXAMPLES_MAP.map fun e => e.1) = (EXAMPLES_CONFIG.map fun e => e.1)
    ∧ ∀ pr ∈ EXAMPLES_MAP.zip EXAMPLES_CONFIG,
        pr.1.1 = pr.2.1
        ∧ pr.1.2.contract = pr.2.2.contract
        ∧ pr.1.2.test = pr.2.2.test
        ∧ pr.1.2.category = pr.2.2.category
        ∧ pr.1.2.description ≠ pr.2.2.description := by
  constructor
  · decide
  · decide

/-! ## C5 / C3: unknown-name behaviour of both entry points -/

/-- C5 fails as stated: with the unknown name `does-not-exist`, both tools
do exit non-zero, but neither prints the registered-name list — the entire
console output is the single line `❌ Error: Unknown example:
does-not-exist` (the name listing is printed only by a no-argument
invocation). -/
theorem unknown_name_list_not_printed :
    (createMain ["repo"] ["does-not-exist"] ⟨[], [], []⟩).exitCode = 1
    ∧ (createMain ["repo"] ["does-not-exist"] ⟨[], [], []⟩).output
        = ["❌ Error: Unknown example: does-not-exist"]
    ∧ ¬ ("  - fhe-add" ∈ (createMain ["repo"] ["does-not-exist"] ⟨[], [], []⟩).output)
    ∧ (docsMain ["does-not-exist"] ⟨[], [], []⟩).exitCode = 1
    ∧ (docsMain ["does-not-exist"] ⟨[], [], []⟩).output
        = ["❌ Error: Unknown example: does-not-exist"] := by
  refine ⟨rfl, rfl, ?_, rfl, rfl⟩
  decide

/-- C5 (amended): an unknown example name makes both entry points exit
with status 1 printing only `❌ Error: Unknown example: <name>`; the full
registered-name list is printed (followed by a fatal usage error) only
when the tool is invoked with no arguments at all. -/
theorem unknown_name_exit_and_output (cwd : FsPath) (name dirArg : String)
    (fs fsd : FS)
    (h1 : lookupExample name = none) (h2 : lookupDocsConfig name = none)
    (h3 : name ≠ "--all") :
    (createMain cwd [name, dirArg] fs).output = ["❌ Error: Unknown example: " ++ name]
    ∧ (createMain cwd [name, dirArg] fs).exitCode = 1
    ∧ (docsMain [name] fsd).output = ["❌ Error: Unknown example: " ++ name]
    ∧ (docsMain [name] fsd).exitCode = 1
    ∧ (createMain cwd [] fs).output = createUsageOutput
    ∧ (createMain cwd [] fs).exitCode = 1
    ∧ (docsMain [] fsd).output = docsUsageOutput
    ∧ (docsMain [] fsd).exitCode = 1 := by
  refine ⟨?_, ?_, ?_, ?_, rfl, rfl, rfl, rfl⟩ <;>
    simp [createMain, docsMain, h1, h2, h3]

theorem unknown_name_exit_and_output_witness :
    (createMain ["repo"] ["no-such-example", "out"] ⟨[], [], []⟩).output
      = ["❌ Error: Unknown example: no-such-example"]
    ∧ (createMain ["repo"] ["no-such-example", "out"] ⟨[], [], []⟩).exitCode = 1 :=
  ⟨(unknown_name_exit_and_output ["repo"] "no-such-example" "out"
      ⟨[], [], []⟩ ⟨[], [], []⟩ (by decide) (by decide) (by decide)).1,
   (unknown_name_exit_and_output ["repo"] "no-such-example" "out"
      ⟨[], [], []⟩ ⟨[], [], []⟩ (by decide) (by decide) (by decide)).2.1⟩

/-- C3 fails as stated: on the unknown name `no-example`, the
Documentation Generator does exit non-zero without writing a file, but it
has already created the `docs` output directory (directory creation
precedes the name check in its `main`), so "fails without creating any
directory" is false. -/
theorem docs_unknown_name_still_creates_docs_dir :
    (docsMain ["no-example"] ⟨[], [], []⟩).exitCode = 1
    ∧ (⟨[], [], []⟩ : FS).dirs = []
    ∧ (docsMain ["no-example"] ⟨[], [], []⟩).fs.dirs = [["docs"]] := by
  exact ⟨rfl, rfl, rfl⟩

/-- C3 (amended): on a name absent from the registry both entry points
exit non-zero without writing or overwriting any file; the
Standalone-Repository Generator touches nothing at all, while the
Documentation Generator first creates the `docs` output directory when it
does not yet exist (and touches nothing else). -/
theorem unknown_name_no_files_written (cwd : FsPath) (name dirArg : String)
    (fs fsd : FS)
    (h1 : lookupExample name = none) (h2 : lookupDocsConfig name = none)
    (h3 : name ≠ "--all") :
    createMain cwd [name, dirArg] fs
      = ⟨fs, ["❌ Error: Unknown example: " ++ name], 1⟩
    ∧ (docsMain [name] fsd).exitCode = 1
    ∧ (docsMain [name] fsd).fs.files = fsd.files
    ∧ (existsSync fsd ["docs"] = true → (docsMain [name] fsd).fs = fsd)
    ∧ (existsSync fsd ["docs"] = false →
        (docsMain [name] fsd).fs = mkdirRec fsd ["docs"]) := by
  refine ⟨?_, ?_, ?_, ?_, ?_⟩
  · simp [createMain, h1]
  · simp [docsMain, h2, h3]
  · simp [docsMain, h2, h3]
    split <;> rfl
  · intro h
    simp [docsMain, h2, h3, h]
  · intro h
    simp [docsMain, h2, h3, h]

theorem unknown_name_no_files_written_witness :
    createMain ["repo"] ["not-registered", "out2"] ⟨[], [], []⟩
      = ⟨⟨[], [], []⟩, ["❌ Error: Unknown example: not-registered"], 1⟩ :=
  (unknown_name_no_files_written ["repo"] "not-registered" "out2"
    ⟨[], [], []⟩ ⟨[], [], []⟩ (by decide) (by decide) (by decide)).1

/-! ## C2: missing source file in the Standalone-Repository Generator -/

/-- C2 fails as stated: for `fhe-add` with the contract file present but
the test file absent, the run is fatal (exit 1) — but output *has* been
written: `outputDir/contracts` and `outputDir/test` were created and the
contract was already copied into the output directory before the missing
test file was detected. -/
theorem create_missing_test_leaves_partial_output :
    (createMain ["repo"] ["fhe-add", "out"]
        ⟨[(["repo", "contracts", "basic", "FHEAdd.sol"], "CONTRACT")], [], []⟩).exitCode = 1
    ∧ lookupFile (createMain ["repo"] ["fhe-add", "out"]
        ⟨[(["repo", "contracts", "basic", "FHEAdd.sol"], "CONTRACT")], [], []⟩).fs
        ["out", "contracts", "FHEAdd.sol"] = some "CONTRACT"
    ∧ (createMain ["repo"] ["fhe-add", "out"]
        ⟨[(["repo", "contracts", "basic", "FHEAdd.sol"], "CONTRACT")], [], []⟩).fs.dirs ≠ [] := by
  refine ⟨rfl, rfl, ?_⟩
  decide

/-- C2 (amended): when the contract or test source of a registered example
is absent, the Standalone-Repository Generator reports a fatal error and
exits with status 1 without writing any of the four synthesized files —
but not before mutating the filesystem: the `contracts/` and `test/`
output directories are always created first, and when only the test file
is missing the contract file has already been copied (the sole possible
file write). -/
theorem create_missing_source_aborts (cwd : FsPath) (name dirArg : String)
    (cfg : ExampleConfig) (fs : FS)
    (hcfg : lookupExample name = some cfg) :
    (assocFind (cwd ++ segs cfg.contract) fs.files = none →
        (createMain cwd [name, dirArg] fs).exitCode = 1
        ∧ (createMain cwd [name, dirArg] fs).fs.files = fs.files
        ∧ (createMain cwd [name, dirArg] fs).fs.dirs
            = ancestors (segs (resolveOutputDir [name, dirArg] name) ++ ["test"])
              ++ (ancestors (segs (resolveOutputDir [name, dirArg] name) ++ ["contracts"])
                  ++ fs.dirs))
    ∧ (∀ c, assocFind (cwd ++ segs cfg.contract) fs.files = some c →
        writeOk fs (segs (resolveOutputDir [name, dirArg] name)
            ++ ["contracts", basename cfg.contract]) = true →
        assocFind (cwd ++ segs cfg.test)
            ((segs (resolveOutputDir [name, dirArg] name)
                ++ ["contracts", basename cfg.contract], c) :: fs.files) = none →
        (createMain cwd [name, dirArg] fs).exitCode = 1
        ∧ (createMain cwd [name, dirArg] fs).fs.files
            = (segs (resolveOutputDir [name, dirArg] name)
                ++ ["contracts", basename cfg.contract], c) :: fs.files) := by
  constructor
  · intro h
    simp [createMain, hcfg, lookupFile, mkdirRec, h]
  · intro c hc hw ht
    simp [writeOk] at hw
    simp [createMain, hcfg, lookupFile, hc, ht, mkdirRec, writeOk, hw]

theorem create_missing_source_aborts_witness :
    (createMain ["repo"] ["fhe-add", "outw"] ⟨[], [], []⟩).exitCode = 1
    ∧ (createMain ["repo"] ["fhe-add", "outw"] ⟨[], [], []⟩).fs.files = ([] : List (FsPath × String))
    ∧ (createMain ["repo"] ["fhe-add", "outw"] ⟨[], [], []⟩).fs.dirs
        = ancestors (segs (resolveOutputDir ["fhe-add", "outw"] "fhe-add") ++ ["test"])
          ++ (ancestors (segs (resolveOutputDir ["fhe-add", "outw"] "fhe-add") ++ ["contracts"])
              ++ ([] : List FsPath)) :=
  (create_missing_source_aborts ["repo"] "fhe-add" "outw"
      { contract := "contracts/basic/FHEAdd.sol",
        test := "test/basic/FHEAdd.ts",
        description := "Demonstrates FHE addition operations on encrypted values.",
        category := "Basic" }
      ⟨[], [], []⟩ (by decide)).1 rfl

/-! ## C1: where the Documentation Generator writes a document -/

/-- C1 is a code bug: `config.output` already carries the `docs/` prefix
(e.g. `docs/fhe-add.md`), yet `main` writes to
`path.join(outputDir, config.output)` with `outputDir = "docs"`, so the
per-example document lands at `docs/docs/fhe-add.md`, not at
`docs/fhe-add.md` as the registry value, the scripts README and the
checked-in `docs/` tree all intend (on a real filesystem the write even
throws `ENOENT`, since `docs/docs` is never created).  Only `SUMMARY.md`
is written directly under `docs/`.  Evaluating the model at the failing
input shows the doubled path, in single-example and in `--all` mode. -/
theorem docs_document_written_at_doubled_path :
    ((lookupDocsConfig "fhe-add").map docsOutPath = some ["docs", "docs", "fhe-add.md"])
    ∧ ((lookupDocsConfig "fhe-add").map docsOutPath ≠ some ["docs", "fhe-add.md"])
    ∧ (docsMain ["fhe-add"] ⟨[], [], []⟩).exitCode = 0
    ∧ (lookupFile (docsMain ["fhe-add"] ⟨[], [], []⟩).fs
        ["docs", "docs", "fhe-add.md"]).isSome = true
    ∧ lookupFile (docsMain ["fhe-add"] ⟨[], [], []⟩).fs ["docs", "fhe-add.md"] = none
    ∧ (docsMain ["--all"] ⟨[], [], []⟩).exitCode = 0
    ∧ lookupFile (docsMain ["--all"] ⟨[], [], []⟩).fs ["docs", "fhe-add.md"] = none
    ∧ (lookupFile (docsMain ["--all"] ⟨[], [], []⟩).fs
        ["docs", "docs", "fhe-add.md"]).isSome = true
    ∧ (lookupFile (docsMain ["--all"] ⟨[], [], []⟩).fs ["docs", "SUMMARY.md"]).isSome = true := by
  refine ⟨?_, ?_, rfl, rfl, rfl, rfl, rfl, rfl, rfl⟩
  · decide
  · decide

/-! ## Lemmas about the `--all` batch loop -/

theorem docsAllLoop_failWrites (l : List (String × DocsConfig)) :
    ∀ fs : FS, (docsAllLoop fs l).fs.failWrites = fs.failWrites := by
  induction l with
  | nil => intro fs; rfl
  | cons hd rest ih =>
    intro fs
    obtain ⟨name, config⟩ := hd
    simp only [docsAllLoop]
    split
    · exact ih (writeFS fs (docsOutPath config) _)
    · rfl

theorem docsAllLoop_skip (q : FsPath) (l : List (String × DocsConfig)) :
    ∀ fs : FS, (∀ e ∈ l, docsOutPath e.2 ≠ q) →
      assocFind q (docsAllLoop fs l).fs.files = assocFind q fs.files := by
  induction l with
  | nil => intro fs _; rfl
  | cons hd rest ih =>
    intro fs h
    obtain ⟨name, config⟩ := hd
    simp only [docsAllLoop]
    split
    · rw [ih _ (fun x hx => h x (List.mem_cons_of_mem _ hx))]
      exact assocFind_cons_ne _ _ (h (name, config) (List.mem_cons_self _ _))
    · rfl

theorem docsAllLoop_runs_to_completion (l : List (String × DocsConfig)) :
    ∀ fs : FS, (∀ e ∈ l, writeOk fs (docsOutPath e.2) = true) →
      (docsAllLoop fs l).ok = true := by
  induction l with
  | nil => intro fs _; rfl
  | cons hd rest ih =>
    intro fs h
    obtain ⟨name, config⟩ := hd
    have h0 := h (name, config) (List.mem_cons_self _ _)
    simp only [docsAllLoop, h0, if_true]
    exact ih _ (fun x hx => by
      simpa using h x (List.mem_cons_of_mem _ hx))

theorem docsAllLoop_all_attempted (l : List (String × DocsConfig)) :
    ∀ fs : FS, (∀ e ∈ l, writeOk fs (docsOutPath e.2) = true) →
      ∀ e ∈ l, ("ℹ️  Generating " ++ e.1 ++ "...") ∈ (docsAllLoop fs l).output := by
  induction l with
  | nil => intro fs _ e he; cases he
  | cons hd rest ih =>
    intro fs h e he
    obtain ⟨name, config⟩ := hd
    have h0 := h (name, config) (List.mem_cons_self _ _)
    simp only [docsAllLoop, h0, if_true]
    rcases List.mem_cons.mp he with heq | hmem
    · subst heq
      exact List.mem_cons_self _ _
    · refine List.mem_cons_of_mem _ (List.mem_cons_of_mem _ ?_)
      exact ih _ (fun x hx => by simpa using h x (List.mem_cons_of_mem _ hx)) e hmem

theorem generateDocumentation_writeFS (n : String) (cfg : DocsConfig) (fs : FS)
    (p : FsPath) (d : String)
    (hc : p ≠ segs cfg.contract) (ht : p ≠ segs cfg.test) :
    generateDocumentation n cfg (writeFS fs p d) = generateDocumentation n cfg fs := by
  simp [generateDocumentation, readFileContent, lookupFile, assocFind, hc, ht]

theorem docsOutPath_ne_of_head {p : FsPath} (h : p.headD "" ≠ "docs")
    (cfg : DocsConfig) : docsOutPath cfg ≠ p := by
  intro he
  apply h
  rw [← he]
  rfl

theorem docsAllLoop_content (l : List (String × DocsConfig)) :
    ∀ fs : FS,
      (∀ e ∈ l, writeOk fs (docsOutPath e.2) = true) →
      (∀ e ∈ l, (segs e.2.contract).headD "" ≠ "docs"
          ∧ (segs e.2.test).headD "" ≠ "docs") →
      l.Pairwise (fun a b => docsOutPath a.2 ≠ docsOutPath b.2) →
      ∀ e ∈ l,
        assocFind (docsOutPath e.2) (docsAllLoop fs l).fs.files
          = some (generateDocumentation e.1 e.2 fs) := by
  induction l with
  | nil => intro fs _ _ _ e he; cases he
  | cons hd rest ih =>
    intro fs hw hsrc hpw e he
    obtain ⟨name, config⟩ := hd
    have hw0 := hw (name, config) (List.mem_cons_self _ _)
    simp only [docsAllLoop, hw0, if_true]
    rcases List.mem_cons.mp he with heq | hmem
    · subst heq
      rw [docsAllLoop_skip _ rest _ ?hrest]
      · exact assocFind_cons_self _ _ _
      case hrest =>
        intro b hb
        exact (List.rel_of_pairwise_cons hpw hb).symm
    · have ih' := ih (writeFS fs (docsOutPath config)
          (generateDocumentation name config fs))
        (fun x hx => by simpa using hw x (List.mem_cons_of_mem _ hx))
        (fun x hx => hsrc x (List.mem_cons_of_mem _ hx))
        (List.Pairwise.of_cons hpw) e hmem
      rw [ih']
      exact congrArg some (generateDocumentation_writeFS e.1 e.2 fs _ _
        (docsOutPath_ne_of_head (hsrc e (List.mem_cons_of_mem _ hmem)).1 config)
        (docsOutPath_ne_of_head (hsrc e (List.mem_cons_of_mem _ hmem)).2 config))

/-! ## Registry facts (established by computation) -/

theorem examplesConfig_src_heads :
    ∀ e ∈ EXAMPLES_CONFIG, (segs e.2.contract).headD "" ≠ "docs"
      ∧ (segs e.2.test).headD "" ≠ "docs" := by decide

theorem examplesConfig_outputs_nodup :
    (EXAMPLES_CONFIG.map fun e => docsOutPath e.2).Nodup := by decide

theorem examplesConfig_outputs_pairwise :
    EXAMPLES_CONFIG.Pairwise fun a b => docsOutPath a.2 ≠ docsOutPath b.2 := by
  have h := examplesConfig_outputs_nodup
  rw [List.Nodup, List.pairwise_map] at h
  exact h

theorem examplesConfig_ne_summary :
    ∀ e ∈ EXAMPLES_CONFIG, docsOutPath e.2 ≠ ["docs", "SUMMARY.md"] := by decide

theorem lookupDocsConfig_of_mem :
    ∀ e ∈ EXAMPLES_CONFIG, lookupDocsConfig e.1 = some e.2 := by decide

theorem lookupDocsConfig_mem {name : String} {cfg : DocsConfig}
    (h : lookupDocsConfig name = some cfg) : (name, cfg) ∈ EXAMPLES_CONFIG := by
  unfold lookupDocsConfig at h
  cases hfind : EXAMPLES_CONFIG.find? (fun e => e.1 = name) with
  | none => rw [hfind] at h; cases h
  | some e =>
    rw [hfind] at h
    have hm := List.mem_of_find?_eq_some hfind
    have hp := List.find?_some hfind
    obtain ⟨k, v⟩ := e
    simp at hp
    subst hp
    cases h
    exact hm

theorem lookupExample_mem {name : String} {cfg : ExampleConfig}
    (h : lookupExample name = some cfg) : (name, cfg) ∈ EXAMPLES_MAP := by
  unfold lookupExample at h
  cases hfind : EXAMPLES_MAP.find? (fun e => e.1 = name) with
  | none => rw [hfind] at h; cases h
  | some e =>
    rw [hfind] at h
    have hm := List.mem_of_find?_eq_some hfind
    have hp := List.find?_some hfind
    obtain ⟨k, v⟩ := e
    simp at hp
    subst hp
    cases h
    exact hm

/-! ## Assembled facts about a full `--all` run -/

theorem writeOk_of_no_failWrites {g : FS} (hg : g.failWrites = []) (p : FsPath) :
    writeOk g p = true := by
  simp [writeOk, hg]

theorem docsAll_assembled (fs1 : FS) (hfw : fs1.failWrites = []) :
    (docsAllLoop fs1 EXAMPLES_CONFIG).ok = true
    ∧ (∀ e ∈ EXAMPLES_CONFIG,
        ("ℹ️  Generating " ++ e.1 ++ "...") ∈ (docsAllLoop fs1 EXAMPLES_CONFIG).output)
    ∧ (∀ e ∈ EXAMPLES_CONFIG,
        assocFind (docsOutPath e.2) (docsAllLoop fs1 EXAMPLES_CONFIG).fs.files
          = some (generateDocumentation e.1 e.2 fs1))
    ∧ writeOk (docsAllLoop fs1 EXAMPLES_CONFIG).fs ["docs", "SUMMARY.md"] = true := by
  have hw : ∀ e ∈ EXAMPLES_CONFIG, writeOk fs1 (docsOutPath e.2) = true :=
    fun e _ => writeOk_of_no_failWrites hfw _
  refine ⟨docsAllLoop_runs_to_completion _ _ hw,
          docsAllLoop_all_attempted _ _ hw,
          docsAllLoop_content _ _ hw examplesConfig_src_heads examplesConfig_outputs_pairwise,
          ?_⟩
  have h := docsAllLoop_failWrites EXAMPLES_CONFIG fs1
  simp [writeOk, h, hfw]

theorem docsAllRun_spec (fs1 : FS) (hfw : fs1.failWrites = []) :
    (docsAllRun fs1).exitCode = 0
    ∧ (∀ e ∈ EXAMPLES_CONFIG,
        ("ℹ️  Generating " ++ e.1 ++ "...") ∈ (docsAllRun fs1).output)
    ∧ (∀ e ∈ EXAMPLES_CONFIG,
        assocFind (docsOutPath e.2) (docsAllRun fs1).fs.files
          = some (generateDocumentation e.1 e.2 fs1))
    ∧ assocFind ["docs", "SUMMARY.md"] (docsAllRun fs1).fs.files
        = some (summaryText (EXAMPLES_CONFIG.map fun e => e.1)) := by
  obtain ⟨hok, hatt, hcont, hsumw⟩ := docsAll_assembled fs1 hfw
  simp only [docsAllRun, hok, hsumw, if_true]
  refine ⟨trivial, ?_, ?_, ?_⟩
  · intro e he
    exact List.mem_cons_of_mem _ (List.mem_append_left _ (hatt e he))
  · intro e he
    rw [writeFS_files, assocFind_cons_ne _ _ (Ne.symm (examplesConfig_ne_summary e he))]
    exact hcont e he
  · rw [writeFS_files, assocFind_cons_self]

/-! ## C4: batch independence in `--all` mode -/

/-- C4 fails as stated: a filesystem write failure for one example's
document does abort the whole batch.  Concretely, when the write of the
first example's document (at its doubled path `docs/docs/fhe-add.md`)
fails, the uncaught exception terminates the process: no later example is
attempted (no `Generating fhe-subtract...` log line), none of their
documents exists afterwards, and `SUMMARY.md` is never written. -/
theorem docsAll_write_failure_aborts_batch :
    (docsMain ["--all"] ⟨[], [], [["docs", "docs", "fhe-add.md"]]⟩).exitCode = 1
    ∧ assocFind ["docs", "docs", "fhe-subtract.md"]
        (docsMain ["--all"] ⟨[], [], [["docs", "docs", "fhe-add.md"]]⟩).fs.files = none
    ∧ ¬ ("ℹ️  Generating fhe-subtract..."
        ∈ (docsMain ["--all"] ⟨[], [], [["docs", "docs", "fhe-add.md"]]⟩).output)
    ∧ assocFind ["docs", "SUMMARY.md"]
        (docsMain ["--all"] ⟨[], [], [["docs", "docs", "fhe-add.md"]]⟩).fs.files = none := by
  refine ⟨rfl, rfl, ?_, rfl⟩
  decide

/-- C4 (amended): within a `--all` batch, a *missing source file* for one
example never aborts the batch — with no failing writes the run exits 0,
every registered example is attempted (its progress line is printed) and
every document plus `SUMMARY.md` is written, regardless of which source
files exist.  A filesystem *write* failure, however, escapes the
`forEach` uncaught and kills the whole process, so the remaining examples
are not attempted (see the counterexample theorem). -/
theorem docsAll_batch_continues_past_missing_sources (fs : FS)
    (hfw : fs.failWrites = []) :
    (docsMain ["--all"] fs).exitCode = 0
    ∧ (∀ e ∈ EXAMPLES_CONFIG,
        ("ℹ️  Generating " ++ e.1 ++ "...") ∈ (docsMain ["--all"] fs).output)
    ∧ (∀ e ∈ EXAMPLES_CONFIG,
        (assocFind (docsOutPath e.2) (docsMain ["--all"] fs).fs.files).isSome = true)
    ∧ (assocFind ["docs", "SUMMARY.md"] (docsMain ["--all"] fs).fs.files).isSome = true := by
  cases hx : existsSync fs ["docs"] with
  | true =>
    have h1 : docsMain ["--all"] fs = docsAllRun fs := by
      simp [docsMain, hx]
    obtain ⟨he, ha, hc, hs⟩ := docsAllRun_spec fs hfw
    rw [h1]
    exact ⟨he, ha, fun e hm => by rw [hc e hm]; rfl, by rw [hs]; rfl⟩
  | false =>
    have h1 : docsMain ["--all"] fs = docsAllRun (mkdirRec fs ["docs"]) := by
      simp [docsMain, hx]
    obtain ⟨he, ha, hc, hs⟩ := docsAllRun_spec (mkdirRec fs ["docs"]) hfw
    rw [h1]
    exact ⟨he, ha, fun e hm => by rw [hc e hm]; rfl, by rw [hs]; rfl⟩

theorem docsAll_batch_continues_past_missing_sources_witness :
    (docsMain ["--all"] ⟨[], [], []⟩).exitCode = 0
    ∧ (assocFind ["docs", "SUMMARY.md"]
        (docsMain ["--all"] ⟨[], [], []⟩).fs.files).isSome = true :=
  ⟨(docsAll_batch_continues_past_missing_sources ⟨[], [], []⟩ rfl).1,
   (docsAll_batch_continues_past_missing_sources ⟨[], [], []⟩ rfl).2.2.2⟩

/-- Every registered example contributes its own bullet line to
`SUMMARY.md`: the text `- [<title>](` occurs in the assembled summary. -/
theorem summaryText_contains_bullet :
    ∀ e ∈ EXAMPLES_CONFIG,
      containsStr (summaryText (EXAMPLES_CONFIG.map fun x => x.1))
        ("- [" ++ e.2.title ++ "](") = true := by
  intro e he
  obtain ⟨s, t, hst⟩ := List.append_of_mem he
  apply containsStr_of_split _
    (summaryHeader ++ joinAll (s.map fun x => summaryLine x.1))
    _
    ((docLink e.2 ++ ".md)\n")
      ++ (joinAll (t.map fun x => summaryLine x.1) ++ summaryOverview))
  have hline : summaryLine e.1
      = ("- [" ++ e.2.title ++ "](") ++ (docLink e.2 ++ ".md)\n") := by
    have h := lookupDocsConfig_of_mem e he
    apply String.ext
    simp [summaryLine, h, String.data_append, List.append_assoc]
  rw [hst]
  apply String.ext
  simp [summaryText, List.map_append, List.map_map, Function.comp_def,
    joinAll_append, joinAll, hline, String.data_append, List.append_assoc]

/-! ## C6: missing source files degrade to placeholders in `--all` mode -/

/-- C6: in `--all` documentation generation with no failing writes, a
registered example whose contract source file is absent still gets its
document generated — with the `File not found: <path>` placeholder
embedded in place of the source text — while the documents of all
registered examples are still produced and `SUMMARY.md` still carries one
bullet per registered example.  (The same holds symmetrically for a
missing test file, whose read goes through the same `readFileContent`.) -/
theorem docsAll_missing_source_uses_placeholder (name : String)
    (cfg : DocsConfig) (fs : FS)
    (hcfg : lookupDocsConfig name = some cfg)
    (hfw : fs.failWrites = [])
    (hmiss : assocFind (segs cfg.contract) fs.files = none) :
    (docsMain ["--all"] fs).exitCode = 0
    ∧ containsStr (generateDocumentation name cfg fs)
        ("File not found: " ++ cfg.contract) = true
    ∧ assocFind (docsOutPath cfg) (docsMain ["--all"] fs).fs.files
        = some (generateDocumentation name cfg fs)
    ∧ (∀ e ∈ EXAMPLES_CONFIG,
        (assocFind (docsOutPath e.2) (docsMain ["--all"] fs).fs.files).isSome = true)
    ∧ assocFind ["docs", "SUMMARY.md"] (docsMain ["--all"] fs).fs.files
        = some (summaryText (EXAMPLES_CONFIG.map fun e => e.1))
    ∧ (∀ e ∈ EXAMPLES_CONFIG,
        containsStr (summaryText (EXAMPLES_CONFIG.map fun x => x.1))
          ("- [" ++ e.2.title ++ "](") = true) := by
  have hmem : (name, cfg) ∈ EXAMPLES_CONFIG := lookupDocsConfig_mem hcfg
  have hplace : containsStr (generateDocumentation name cfg fs)
      ("File not found: " ++ cfg.contract) = true := by
    apply containsStr_of_split _ (docHeader cfg) _
      (docBetween ++ (readFileContent fs cfg.test ++ docFooter))
    simp [generateDocumentation, readFileContent, lookupFile, hmiss]
  cases hx : existsSync fs ["docs"] with
  | true =>
    have h1 : docsMain ["--all"] fs = docsAllRun fs := by
      simp [docsMain, hx]
    obtain ⟨he, _, hc, hs⟩ := docsAllRun_spec fs hfw
    rw [h1]
    exact ⟨he, hplace, hc (name, cfg) hmem,
      fun e hm => by rw [hc e hm]; rfl, hs, summaryText_contains_bullet⟩
  | false =>
    have h1 : docsMain ["--all"] fs = docsAllRun (mkdirRec fs ["docs"]) := by
      simp [docsMain, hx]
    obtain ⟨he, _, hc, hs⟩ := docsAllRun_spec (mkdirRec fs ["docs"]) hfw
    rw [h1]
    exact ⟨he, hplace, hc (name, cfg) hmem,
      fun e hm => by rw [hc e hm]; rfl, hs, summaryText_contains_bullet⟩

theorem docsAll_missing_source_uses_placeholder_witness :
    (docsMain ["--all"] ⟨[], [], []⟩).exitCode = 0
    ∧ containsStr
        (generateDocumentation "blind-auction"
          { title := "Blind Auction",
            description := "This example demonstrates a sealed-bid auction where bids remain encrypted during the bidding phase.",
            contract := "contracts/advanced/BlindAuction.sol",
            test := "test/advanced/BlindAuction.ts",
            output := "docs/blind-auction.md",
            category := "Advanced" }
          ⟨[], [], []⟩)
        ("File not found: " ++ "contracts/advanced/BlindAuction.sol") = true :=
  ⟨(docsAll_missing_source_uses_placeholder "blind-auction"
      { title := "Blind Auction",
            description := "This example demonstrates a sealed-bid auction where bids remain encrypted during the bidding phase.",
            contract := "contracts/advanced/BlindAuction.sol",
            test := "test/advanced/BlindAuction.ts",
            output := "docs/blind-auction.md",
            category := "Advanced" } ⟨[], [], []⟩
      (by decide) rfl rfl).1,
   (docsAll_missing_source_uses_placeholder "blind-auction"
      { title := "Blind Auction",
            description := "This example demonstrates a sealed-bid auction where bids remain encrypted during the bidding phase.",
            contract := "contracts/advanced/BlindAuction.sol",
            test := "test/advanced/BlindAuction.ts",
            output := "docs/blind-auction.md",
            category := "Advanced" } ⟨[], [], []⟩
      (by decide) rfl rfl).2.1⟩

/-! ## Characterising a successful standalone generation -/

/-- The output directory segments of a `createMain cwd [name, dirArg] fs`
run. -/
def createOut (name dirArg : String) : FsPath :=
  segs (resolveOutputDir [name, dirArg] name)

/-- Destination of the verbatim contract copy. -/
def contractDest (name dirArg : String) (cfg : ExampleConfig) : FsPath :=
  createOut name dirArg ++ ["contracts", basename cfg.contract]

/-- Destination of the verbatim test copy. -/
def testDest (name dirArg : String) (cfg : ExampleConfig) : FsPath :=
  createOut name dirArg ++ ["test", basename cfg.test]

/-- The write targets after the contract copy, in write order. -/
def genPaths (name dirArg : String) (cfg : ExampleConfig) : List FsPath :=
  [testDest name dirArg cfg,
   createOut name dirArg ++ ["README.md"],
   createOut name dirArg ++ ["package.json"],
   createOut name dirArg ++ ["hardhat.config.ts"],
   createOut name dirArg ++ ["tsconfig.json"]]

/-- The filesystem after a fully successful `createMain` run that copied
contract bytes `c` and test bytes `t`. -/
def createSuccessFS (name dirArg : String) (cfg : ExampleConfig) (fs : FS)
    (c t : String) : FS :=
  ⟨(createOut name dirArg ++ ["tsconfig.json"], tsConfigContent)
    :: (createOut name dirArg ++ ["hardhat.config.ts"], hardhatConfigContent)
    :: (createOut name dirArg ++ ["package.json"], packageJsonContent name)
    :: (createOut name dirArg ++ ["README.md"], readmeContent name cfg)
    :: (testDest name dirArg cfg, t)
    :: (contractDest name dirArg cfg, c)
    :: fs.files,
   ancestors (createOut name dirArg ++ ["test"])
     ++ (ancestors (createOut name dirArg ++ ["contracts"]) ++ fs.dirs),
   fs.failWrites⟩

theorem writeSeq_all_ok (l : List (FsPath × String)) :
    ∀ fs : FS, (∀ pc ∈ l, writeOk fs pc.1 = true) →
      writeSeq fs l = (⟨l.reverse ++ fs.files, fs.dirs, fs.failWrites⟩, none) := by
  induction l with
  | nil => intro fs _; rfl
  | cons pc rest ih =>
    intro fs h
    obtain ⟨p, c⟩ := pc
    have h0 := h (p, c) (List.mem_cons_self _ _)
    simp only [writeSeq, h0, if_true]
    rw [ih _ (fun x hx => by simpa using h x (List.mem_cons_of_mem _ hx))]
    simp [List.append_assoc]

theorem writeSeq_none_ok (l : List (FsPath × String)) :
    ∀ (fs fs' : FS), writeSeq fs l = (fs', none) →
      ∀ pc ∈ l, writeOk fs pc.1 = true := by
  induction l with
  | nil => intro fs fs' _ pc hpc; cases hpc
  | cons hd rest ih =>
    intro fs fs' hseq pc hpc
    obtain ⟨p, c⟩ := hd
    by_cases h0 : writeOk fs p = true
    · rcases List.mem_cons.mp hpc with heq | hmem
      · subst heq; exact h0
      · simp only [writeSeq, h0, if_true] at hseq
        have := ih _ _ hseq pc hmem
        simpa using this
    · simp only [writeSeq] at hseq
      rw [if_neg h0] at hseq
      cases hseq

theorem append_single_ne_pair (out : FsPath) (a b c : String) :
    out ++ [a] ≠ out ++ [b, c] := by
  intro h
  have h2 := (List.append_right_inj out).mp h
  simp at h2

theorem append_pair_ne_pair (out : FsPath) {a c : String} (b d : String)
    (h : a ≠ c) : out ++ [a, b] ≠ out ++ [c, d] := by
  intro he
  have h2 := (List.append_right_inj out).mp he
  simp [h] at h2

theorem append_single_ne_single (out : FsPath) {a b : String} (h : a ≠ b) :
    out ++ [a] ≠ out ++ [b] := by
  intro he
  have h2 := (List.append_right_inj out).mp he
  simp [h] at h2

theorem createSuccessFS_lookups (name dirArg : String) (cfg : ExampleConfig)
    (fs : FS) (c t : String) :
    assocFind (contractDest name dirArg cfg)
        (createSuccessFS name dirArg cfg fs c t).files = some c
    ∧ assocFind (testDest name dirArg cfg)
        (createSuccessFS name dirArg cfg fs c t).files = some t
    ∧ assocFind (createOut name dirArg ++ ["README.md"])
        (createSuccessFS name dirArg cfg fs c t).files = some (readmeContent name cfg)
    ∧ assocFind (createOut name dirArg ++ ["package.json"])
        (createSuccessFS name dirArg cfg fs c t).files = some (packageJsonContent name)
    ∧ assocFind (createOut name dirArg ++ ["hardhat.config.ts"])
        (createSuccessFS name dirArg cfg fs c t).files = some hardhatConfigContent
    ∧ assocFind (createOut name dirArg ++ ["tsconfig.json"])
        (createSuccessFS name dirArg cfg fs c t).files = some tsConfigContent := by
  refine ⟨?_, ?_, ?_, ?_, ?_, ?_⟩ <;>
    simp [createSuccessFS, contractDest, testDest, assocFind,
      append_single_ne_pair,
      append_pair_ne_pair _ _ _ (by decide : ("test" : String) ≠ "contracts"),
      append_pair_ne_pair _ _ _ (by decide : ("contracts" : String) ≠ "test"),
      append_single_ne_single _ (by decide : ("tsconfig.json" : String) ≠ "README.md"),
      append_single_ne_single _ (by decide : ("hardhat.config.ts" : String) ≠ "README.md"),
      append_single_ne_single _ (by decide : ("package.json" : String) ≠ "README.md"),
      append_single_ne_single _ (by decide : ("tsconfig.json" : String) ≠ "package.json"),
      append_single_ne_single _ (by decide : ("hardhat.config.ts" : String) ≠ "package.json"),
      append_single_ne_single _ (by decide : ("tsconfig.json" : String) ≠ "hardhat.config.ts")]

theorem writeOk_eq_of_failWrites {fs fs' : FS} (h : fs'.failWrites = fs.failWrites)
    (p : FsPath) : writeOk fs' p = writeOk fs p := by
  simp [writeOk, h]

theorem createMain_forward (cwd : FsPath) (name dirArg : String)
    (cfg : ExampleConfig) (fs : FS) (c t : String)
    (hcfg : lookupExample name = some cfg)
    (hc : assocFind (cwd ++ segs cfg.contract) fs.files = some c)
    (hw0 : writeOk fs (contractDest name dirArg cfg) = true)
    (ht : assocFind (cwd ++ segs cfg.test)
        ((contractDest name dirArg cfg, c) :: fs.files) = some t)
    (hw : ∀ q ∈ genPaths name dirArg cfg, writeOk fs q = true) :
    createMain cwd [name, dirArg] fs
      = ⟨createSuccessFS name dirArg cfg fs c t,
         createHeader name (resolveOutputDir [name, dirArg] name)
           ++ createSuccessOutput (resolveOutputDir [name, dirArg] name), 0⟩ := by
  have hseq := writeSeq_all_ok
    [(testDest name dirArg cfg, t),
     (createOut name dirArg ++ ["README.md"], readmeContent name cfg),
     (createOut name dirArg ++ ["package.json"], packageJsonContent name),
     (createOut name dirArg ++ ["hardhat.config.ts"], hardhatConfigContent),
     (createOut name dirArg ++ ["tsconfig.json"], tsConfigContent)]
    (writeFS (mkdirRec (mkdirRec fs (createOut name dirArg ++ ["contracts"]))
        (createOut name dirArg ++ ["test"])) (contractDest name dirArg cfg) c)
    (by
      intro pc hpc
      rw [writeOk_writeFS, writeOk_mkdirRec, writeOk_mkdirRec]
      simp only [List.mem_cons, List.not_mem_nil, or_false] at hpc
      rcases hpc with h | h | h | h | h <;> subst h <;>
        exact hw _ (by simp [genPaths]))
  simp only [contractDest, testDest, createOut, mkdirRec, writeFS] at ht hseq
  simp [contractDest, createOut, writeOk] at hw0
  simp [createMain, hcfg, lookupFile, mkdirRec, writeFS, writeOk, hc, hw0, ht, hseq,
    createSuccessFS, contractDest, testDest, createOut]

theorem createMain_success_inv (cwd : FsPath) (name dirArg : String)
    (cfg : ExampleConfig) (fs : FS)
    (hcfg : lookupExample name = some cfg)
    (h0 : (createMain cwd [name, dirArg] fs).exitCode = 0) :
    ∃ c t,
      assocFind (cwd ++ segs cfg.contract) fs.files = some c
      ∧ writeOk fs (contractDest name dirArg cfg) = true
      ∧ assocFind (cwd ++ segs cfg.test)
          ((contractDest name dirArg cfg, c) :: fs.files) = some t
      ∧ (∀ q ∈ genPaths name dirArg cfg, writeOk fs q = true) := by
  simp only [createMain, List.isEmpty_cons, List.headD_cons, hcfg, lookupFile,
    mkdirRec, writeFS, Bool.false_eq_true, if_false] at h0
  simp only [contractDest, testDest, createOut, genPaths]
  cases hcase : assocFind (cwd ++ segs cfg.contract) fs.files with
  | none => rw [hcase] at h0; simp at h0
  | some c =>
    rw [hcase] at h0
    simp only [] at h0
    by_cases hw0 : writeOk fs
        (segs (resolveOutputDir [name, dirArg] name) ++ ["contracts", basename cfg.contract]) = true
    · rw [if_pos (by simpa [writeOk] using hw0)] at h0
      cases htest : assocFind (cwd ++ segs cfg.test)
          ((segs (resolveOutputDir [name, dirArg] name)
              ++ ["contracts", basename cfg.contract], c) :: fs.files) with
      | none => rw [htest] at h0; simp at h0
      | some t =>
        rw [htest] at h0
        simp only [] at h0
        cases hseq : writeSeq
            ⟨(segs (resolveOutputDir [name, dirArg] name)
                ++ ["contracts", basename cfg.contract], c) :: fs.files,
             ancestors (segs (resolveOutputDir [name, dirArg] name) ++ ["test"])
               ++ (ancestors (segs (resolveOutputDir [name, dirArg] name)
                    ++ ["contracts"]) ++ fs.dirs),
             fs.failWrites⟩
            [(segs (resolveOutputDir [name, dirArg] name)
                ++ ["test", basename cfg.test], t),
             (segs (resolveOutputDir [name, dirArg] name) ++ ["README.md"],
                readmeContent name cfg),
             (segs (resolveOutputDir [name, dirArg] name) ++ ["package.json"],
                packageJsonContent name),
             (segs (resolveOutputDir [name, dirArg] name) ++ ["hardhat.config.ts"],
                hardhatConfigContent),
             (segs (resolveOutputDir [name, dirArg] name) ++ ["tsconfig.json"],
                tsConfigContent)] with
        | mk fs3 fail =>
          cases fail with
          | some p => rw [hseq] at h0; simp at h0
          | none =>
            refine ⟨c, t, rfl, hw0, htest, ?_⟩
            intro q hq
            have hall := writeSeq_none_ok _ _ _ hseq
            simp only [List.mem_cons, List.not_mem_nil, or_false] at hq
            rcases hq with h | h | h | h | h
            · subst h; exact hall (_, t) (by simp)
            · subst h; exact hall (_, readmeContent name cfg) (by simp)
            · subst h; exact hall (_, packageJsonContent name) (by simp)
            · subst h; exact hall (_, hardhatConfigContent) (by simp)
            · subst h; exact hall (_, tsConfigContent) (by simp)
    · rw [if_neg (by simpa [writeOk] using hw0)] at h0
      simp at h0

theorem examplesMap_basenames :
    ∀ e ∈ EXAMPLES_MAP, basename e.2.contract ≠ basename e.2.test := by decide

theorem basename_getLast? (s : String) : (segs s).getLast? = some (basename s) := by
  have h := segs_ne_nil s
  rw [basename, List.getLastD_eq_getLast?]
  cases hx : (segs s).getLast? with
  | none => exact absurd (List.getLast?_eq_none_iff.mp hx) h
  | some x => rfl

theorem testSrc_ne_contractDest (cwd : FsPath) (name dirArg : String)
    (cfg : ExampleConfig) (hne : basename cfg.contract ≠ basename cfg.test) :
    cwd ++ segs cfg.test ≠ contractDest name dirArg cfg := by
  intro h
  have h2 := congrArg List.getLast? h
  rw [contractDest] at h2
  rw [List.getLast?_append, List.getLast?_append, basename_getLast?] at h2
  have h3 : (["contracts", basename cfg.contract] : FsPath).getLast?
      = some (basename cfg.contract) := rfl
  rw [h3] at h2
  simp at h2
  exact hne h2.symm

/-- C9: after a successful standalone generation for a registered example,
the bytes stored at `outputDir/contracts/<basename contractPath>` are
exactly the bytes of the original contract source file, and the bytes at
`outputDir/test/<basename testPath>` are exactly the bytes of the original
test source file — a verbatim copy with no transformation. -/
theorem copy_fidelity (cwd : FsPath) (name dirArg : String)
    (cfg : ExampleConfig) (fs : FS)
    (hcfg : lookupExample name = some cfg)
    (h0 : (createMain cwd [name, dirArg] fs).exitCode = 0) :
    (∃ c, assocFind (cwd ++ segs cfg.contract) fs.files = some c
        ∧ assocFind (contractDest name dirArg cfg)
            (createMain cwd [name, dirArg] fs).fs.files = some c)
    ∧ (∃ t, assocFind (cwd ++ segs cfg.test) fs.files = some t
        ∧ assocFind (testDest name dirArg cfg)
            (createMain cwd [name, dirArg] fs).fs.files = some t) := by
  obtain ⟨c, t, hc, hw0, ht, hw⟩ := createMain_success_inv cwd name dirArg cfg fs hcfg h0
  have heq := createMain_forward cwd name dirArg cfg fs c t hcfg hc hw0 ht hw
  have hmem := lookupExample_mem hcfg
  have hbn := examplesMap_basenames (name, cfg) hmem
  have hne : cwd ++ segs cfg.test ≠ contractDest name dirArg cfg :=
    testSrc_ne_contractDest cwd name dirArg cfg hbn
  have ht' : assocFind (cwd ++ segs cfg.test) fs.files = some t := by
    rw [assocFind_cons_ne c fs.files (Ne.symm hne)] at ht
    exact ht
  obtain ⟨l1, l2, _, _, _, _⟩ := createSuccessFS_lookups name dirArg cfg fs c t
  rw [heq]
  exact ⟨⟨c, hc, l1⟩, ⟨t, ht', l2⟩⟩

theorem copy_fidelity_witness :
    (∃ c, assocFind (["repo"] ++ segs "contracts/basic/FHEAdd.sol")
        (⟨[(["repo", "contracts", "basic", "FHEAdd.sol"], "SOLBYTES"),
           (["repo", "test", "basic", "FHEAdd.ts"], "TSBYTES")], [], []⟩ : FS).files = some c
      ∧ assocFind (contractDest "fhe-add" "outdir"
          { contract := "contracts/basic/FHEAdd.sol",
            test := "test/basic/FHEAdd.ts",
            description := "Demonstrates FHE addition operations on encrypted values.",
            category := "Basic" })
          (createMain ["repo"] ["fhe-add", "outdir"]
            ⟨[(["repo", "contracts", "basic", "FHEAdd.sol"], "SOLBYTES"),
              (["repo", "test", "basic", "FHEAdd.ts"], "TSBYTES")], [], []⟩).fs.files
          = some c) :=
  (copy_fidelity ["repo"] "fhe-add" "outdir"
    { contract := "contracts/basic/FHEAdd.sol",
      test := "test/basic/FHEAdd.ts",
      description := "Demonstrates FHE addition operations on encrypted values.",
      category := "Basic" }
    ⟨[(["repo", "contracts", "basic", "FHEAdd.sol"], "SOLBYTES"),
      (["repo", "test", "basic", "FHEAdd.ts"], "TSBYTES")], [], []⟩
    (by decide) rfl).1

/-- C8: standalone generation is a pure function of the resolved
descriptor and the two source files' bytes.  If a successful
`createMain cwd [name, dir]` run is immediately repeated on the resulting
filesystem and the two source files are unchanged, the second run also
succeeds, prints the same console output, and stores byte-identical
contents at all six output files — no timestamps, random identifiers or
other run-dependent data exist anywhere in the generated content. -/
theorem generation_deterministic (cwd : FsPath) (name dirArg : String)
    (cfg : ExampleConfig) (fs : FS)
    (hcfg : lookupExample name = some cfg)
    (h0 : (createMain cwd [name, dirArg] fs).exitCode = 0)
    (hcs : assocFind (cwd ++ segs cfg.contract)
        (createMain cwd [name, dirArg] fs).fs.files
        = assocFind (cwd ++ segs cfg.contract) fs.files)
    (hts : assocFind (cwd ++ segs cfg.test)
        (createMain cwd [name, dirArg] fs).fs.files
        = assocFind (cwd ++ segs cfg.test) fs.files) :
    (createMain cwd [name, dirArg] (createMain cwd [name, dirArg] fs).fs).exitCode = 0
    ∧ (createMain cwd [name, dirArg] (createMain cwd [name, dirArg] fs).fs).output
        = (createMain cwd [name, dirArg] fs).output
    ∧ ∀ q ∈ contractDest name dirArg cfg :: genPaths name dirArg cfg,
        assocFind q (createMain cwd [name, dirArg] (createMain cwd [name, dirArg] fs).fs).fs.files
          = assocFind q (createMain cwd [name, dirArg] fs).fs.files := by
  obtain ⟨c, t, hc, hw0, ht, hw⟩ := createMain_success_inv cwd name dirArg cfg fs hcfg h0
  have heq := createMain_forward cwd name dirArg cfg fs c t hcfg hc hw0 ht hw
  -- facts about the filesystem the first run leaves behind
  have hfw1 : (createMain cwd [name, dirArg] fs).fs.failWrites = fs.failWrites := by
    rw [heq]; rfl
  -- second-run preconditions
  have hc2 : assocFind (cwd ++ segs cfg.contract)
      (createMain cwd [name, dirArg] fs).fs.files = some c := by
    rw [hcs]; exact hc
  have hw0₂ : writeOk (createMain cwd [name, dirArg] fs).fs
      (contractDest name dirArg cfg) = true := by
    rw [writeOk_eq_of_failWrites hfw1]; exact hw0
  have ht2 : assocFind (cwd ++ segs cfg.test)
      ((contractDest name dirArg cfg, c) :: (createMain cwd [name, dirArg] fs).fs.files)
      = some t := by
    by_cases hq : contractDest name dirArg cfg = cwd ++ segs cfg.test
    · rw [assocFind, if_pos hq]
      rw [assocFind, if_pos hq] at ht
      exact ht
    · rw [assocFind_cons_ne _ _ hq, hts]
      rw [assocFind_cons_ne _ _ hq] at ht
      exact ht
  have hw₂ : ∀ q ∈ genPaths name dirArg cfg,
      writeOk (createMain cwd [name, dirArg] fs).fs q = true := by
    intro q hq
    rw [writeOk_eq_of_failWrites hfw1]
    exact hw q hq
  have heq2 := createMain_forward cwd name dirArg cfg
    (createMain cwd [name, dirArg] fs).fs c t hcfg hc2 hw0₂ ht2 hw₂
  obtain ⟨a1, a2, a3, a4, a5, a6⟩ :=
    createSuccessFS_lookups name dirArg cfg (createMain cwd [name, dirArg] fs).fs c t
  obtain ⟨b1, b2, b3, b4, b5, b6⟩ :=
    createSuccessFS_lookups name dirArg cfg fs c t
  refine ⟨by rw [heq2], by rw [heq2, heq], ?_⟩
  intro q hq
  simp only [genPaths, List.mem_cons, List.not_mem_nil, or_false] at hq
  rw [heq2]
  conv_rhs => rw [heq]
  rcases hq with h | h | h | h | h | h
  · subst h; rw [a1, b1]
  · subst h; rw [a2, b2]
  · subst h; rw [a3, b3]
  · subst h; rw [a4, b4]
  · subst h; rw [a5, b5]
  · subst h; rw [a6, b6]

theorem generation_deterministic_witness :
    (createMain ["repo"] ["fhe-subtract", "dout"]
      (createMain ["repo"] ["fhe-subtract", "dout"]
        ⟨[(["repo", "contracts", "basic", "FHESubtract.sol"], "SOL2"),
          (["repo", "test", "basic", "FHESubtract.ts"], "TS2")], [], []⟩).fs).exitCode = 0
    ∧ (createMain ["repo"] ["fhe-subtract", "dout"]
        (createMain ["repo"] ["fhe-subtract", "dout"]
          ⟨[(["repo", "contracts", "basic", "FHESubtract.sol"], "SOL2"),
            (["repo", "test", "basic", "FHESubtract.ts"], "TS2")], [], []⟩).fs).output
        = (createMain ["repo"] ["fhe-subtract", "dout"]
            ⟨[(["repo", "contracts", "basic", "FHESubtract.sol"], "SOL2"),
              (["repo", "test", "basic", "FHESubtract.ts"], "TS2")], [], []⟩).output :=
  ⟨(generation_deterministic ["repo"] "fhe-subtract" "dout"
      { contract := "contracts/basic/FHESubtract.sol",
        test := "test/basic/FHESubtract.ts",
        description := "Shows how to perform subtraction on encrypted values with underflow protection.",
        category := "Basic" }
      ⟨[(["repo", "contracts", "basic", "FHESubtract.sol"], "SOL2"),
        (["repo", "test", "basic", "FHESubtract.ts"], "TS2")], [], []⟩
      (by decide) rfl rfl rfl).1,
   (generation_deterministic ["repo"] "fhe-subtract" "dout"
      { contract := "contracts/basic/FHESubtract.sol",
        test := "test/basic/FHESubtract.ts",
        description := "Shows how to perform subtraction on encrypted values with underflow protection.",
        category := "Basic" }
      ⟨[(["repo", "contracts", "basic", "FHESubtract.sol"], "SOL2"),
        (["repo", "test", "basic", "FHESubtract.ts"], "TS2")], [], []⟩
      (by decide) rfl rfl rfl).2.1⟩
